import Mathlib

/-!
Verification of the CampusGuard frame-analysis and heuristic-classification
engine (ComputerVisionService).  The definitions below are shallow embeddings
of the TypeScript source: pixel values are natural numbers in [0,255],
floating-point arithmetic is modelled exactly over the rationals, and the
pixel buffers of canvases and video frames are row-major lists of RGB triples.
-/

namespace CampusGuard

/-- An RGB pixel: three 8-bit channels as read from canvas image data. -/
abbrev Pixel := ℕ × ℕ × ℕ

/-- Embeds isSkinTone: basic skin tone ranges over (r, g, b). -/
def isSkinTone (r g b : ℕ) : Bool :=
  decide (r > 95) && decide (g > 40) && decide (b > 20) &&
  decide (max r (max g b) - min r (min g b) > 15) &&
  decide (((r : ℤ) - (g : ℤ)).natAbs > 15) && decide (r > g) && decide (r > b)

/-- Embeds isFabricLike: common mask colors (blue, white, gray, black). -/
def isFabricLike (r g b : ℕ) : Bool :=
  let isBlue := decide (b > r) && decide (b > g) && decide (b > 100)
  let isWhite := decide (r > 200) && decide (g > 200) && decide (b > 200)
  let isGray := decide (((r : ℤ) - (g : ℤ)).natAbs < 20) &&
    decide (((g : ℤ) - (b : ℤ)).natAbs < 20) &&
    decide (((r : ℤ) - (b : ℤ)).natAbs < 20)
  let isBlack := decide (r < 50) && decide (g < 50) && decide (b < 50)
  isBlue || isWhite || isGray || isBlack

/-- Embeds isFireColor: bright orange, red or yellow fire colors. -/
def isFireColor (r g b : ℕ) : Bool :=
  let isOrange := decide (r > 200) && decide (g > 100) && decide (g < 200) && decide (b < 100)
  let isRed := decide (r > 180) && decide (g < 100) && decide (b < 100)
  let isYellow := decide (r > 200) && decide (g > 200) && decide (b < 150)
  let isBrightYellow := decide (r > 220) && decide (g > 220) && decide (b < 100)
  let isIntenseFire := decide (r + g > 350) && decide (b < 150) && decide (r > g)
  isOrange || isRed || isYellow || isBrightYellow || isIntenseFire

/-- Embeds isSmokeColor: gray colors with low channel variation.
The average and per-channel deviations are exact rationals, matching the
floating-point source values on 8-bit inputs. -/
def isSmokeColor (r g b : ℕ) : Bool :=
  let avgColor : ℚ := ((r : ℚ) + g + b) / 3
  let colorVariation : ℚ := max |(r : ℚ) - avgColor| (max |(g : ℚ) - avgColor| |(b : ℚ) - avgColor|)
  let isGrayish := decide (avgColor > 80) && decide (avgColor < 200) && decide (colorVariation < 30)
  let isLightSmoke := decide (r > 150) && decide (g > 150) && decide (b > 150) && decide (colorVariation < 25)
  let isDarkSmoke := decide (avgColor > 60) && decide (avgColor < 140) && decide (colorVariation < 20)
  isGrayish || isLightSmoke || isDarkSmoke

/-- Claim C8: for every (r,g,b) with each channel in [0,255], isSkinTone holds
iff r>95, g>40, b>20, the max minus min channel exceeds 15, the absolute
difference of r and g exceeds 15, r>g and r>b; and isFabricLike holds iff the
pixel is blue-dominant, near-white, near-gray or near-black. -/
theorem isSkinTone_isFabricLike_spec (r g b : ℕ)
    (hr : r ≤ 255) (hg : g ≤ 255) (hb : b ≤ 255) :
    (isSkinTone r g b = true ↔
      (95 < r ∧ 40 < g ∧ 20 < b ∧
        15 < max r (max g b) - min r (min g b) ∧
        15 < |(r : ℤ) - (g : ℤ)| ∧ g < r ∧ b < r)) ∧
    (isFabricLike r g b = true ↔
      ((r < b ∧ g < b ∧ 100 < b) ∨
        (200 < r ∧ 200 < g ∧ 200 < b) ∨
        (|(r : ℤ) - (g : ℤ)| < 20 ∧ |(g : ℤ) - (b : ℤ)| < 20 ∧ |(r : ℤ) - (b : ℤ)| < 20) ∨
        (r < 50 ∧ g < 50 ∧ b < 50))) := by
  refine ⟨?_, ?_⟩
  · rw [isSkinTone]
    simp only [Bool.and_eq_true, decide_eq_true_eq, Int.abs_eq_natAbs]
    omega
  · rw [isFabricLike]
    simp only [Bool.or_eq_true, Bool.and_eq_true, decide_eq_true_eq, Int.abs_eq_natAbs]
    omega

/-- Witness for C8 at the spec test point (160,120,90), a skin-tone pixel
that is not fabric-like. -/
theorem isSkinTone_isFabricLike_spec_witness :
    (160 : ℕ) ≤ 255 ∧ (120 : ℕ) ≤ 255 ∧ (90 : ℕ) ≤ 255 ∧
    (isSkinTone 160 120 90 = true ↔
      (95 < 160 ∧ 40 < 120 ∧ 20 < 90 ∧
        15 < max 160 (max 120 90) - min 160 (min 120 90) ∧
        15 < |(160 : ℤ) - (120 : ℤ)| ∧ 120 < 160 ∧ 90 < 160)) :=
  ⟨by decide, by decide, by decide,
    (isSkinTone_isFabricLike_spec 160 120 90 (by decide) (by decide) (by decide)).1⟩

/-- A captured video frame: canvas dimensions and the row-major pixel buffer
read out of getImageData (one Pixel per RGBA quadruple). -/
structure Frame where
  width : ℕ
  height : ℕ
  data : List Pixel
deriving DecidableEq

/-- Reads the pixel at linear index i of the frame buffer (index into the
RGBA array divided by 4); out-of-range reads yield the zero pixel. -/
def pixelAt (f : Frame) (i : ℕ) : Pixel := f.data.getD i (0, 0, 0)

/-- Average of the three channels of a pixel, as in the motion analyzer. -/
def intensity (p : Pixel) : ℚ := ((p.1 : ℚ) + p.2.1 + p.2.2) / 3

/-- Linear indices of the four axis-aligned neighbors of (x, y). -/
def neighborIndices (w x y : ℕ) : List ℕ :=
  [(y - 1) * w + x, (y + 1) * w + x, y * w + (x - 1), y * w + (x + 1)]

/-- Average intensity of the four neighbors of (x, y), counting neighbors
whose index falls outside the buffer as contributing nothing, exactly as the
bounds check in the source does. -/
def avgNeighborIntensity (f : Frame) (x y : ℕ) : ℚ :=
  (((neighborIndices f.width x y).map
    fun i => if i < f.data.length then intensity (pixelAt f i) else 0).sum) / 4

/-- Flicker indicator at an interior pixel: the intensity differs from the
average neighbor intensity by more than 40. -/
def flickerAt (f : Frame) (x y : ℕ) : Bool :=
  decide (|intensity (pixelAt f (y * f.width + x)) - avgNeighborIntensity f x y| > 40)

/-- Upward-gradient indicator at an interior pixel: the pixel is more than 20
intensity units brighter than the pixel below it. -/
def upwardAt (f : Frame) (x y : ℕ) : Bool :=
  if y < f.height - 1 then
    decide (intensity (pixelAt f (y * f.width + x)) -
      intensity (pixelAt f ((y + 1) * f.width + x)) > 20)
  else false

/-- Interior pixel coordinates (x, y) scanned by the motion loops:
y from 1 to height-2 and x from 1 to width-2, in row-major order. -/
def interiorPoints (f : Frame) : List (ℕ × ℕ) :=
  (List.range' 1 (f.height - 2)).flatMap fun y =>
    (List.range' 1 (f.width - 2)).map fun x => (x, y)

/-- Result of the single-frame motion pattern heuristic. -/
structure MotionResult where
  hasFlickering : Bool
  hasUpwardMovement : Bool
deriving DecidableEq

/-- Embeds analyzeMotionPatterns: counts interior pixels with large local
intensity variation (flicker proxy) and with a strong upward brightness
gradient (smoke-rising proxy), and thresholds the two counts over the full
pixel count width*height. -/
def analyzeMotionPatterns (f : Frame) : MotionResult :=
  let intensityChanges := ((interiorPoints f).filter fun p => flickerAt f p.1 p.2).length
  let verticalGradients := ((interiorPoints f).filter fun p => upwardAt f p.1 p.2).length
  let totalPixels : ℚ := (f.width : ℚ) * f.height
  { hasFlickering := decide ((intensityChanges : ℚ) / totalPixels > 1/100)
    hasUpwardMovement := decide ((verticalGradients : ℚ) / totalPixels > 8/1000) }

/-- Fraction of frame pixels classified as fire-colored (firePixels divided
by pixels.length / 4). -/
def fireRatio (f : Frame) : ℚ :=
  ((f.data.countP fun p => isFireColor p.1 p.2.1 p.2.2 : ℕ) : ℚ) / f.data.length

/-- Fraction of frame pixels classified as smoke-colored. -/
def smokeRatio (f : Frame) : ℚ :=
  ((f.data.countP fun p => isSmokeColor p.1 p.2.1 p.2.2 : ℕ) : ℚ) / f.data.length

/-- Result of the composite fire/smoke detector. -/
structure FireSmokeResult where
  fireDetected : Bool
  smokeDetected : Bool
deriving DecidableEq

/-- Embeds detectFireAndSmoke: color ratios over the whole frame combined
with one invocation of the motion pattern analyzer on the same frame. -/
def detectFireAndSmoke (f : Frame) : FireSmokeResult :=
  let motionAnalysis := analyzeMotionPatterns f
  { fireDetected :=
      (decide (fireRatio f > 2/1000) && motionAnalysis.hasFlickering) ||
        decide (fireRatio f > 5/1000)
    smokeDetected :=
      (decide (smokeRatio f > 1/100) && motionAnalysis.hasUpwardMovement) ||
        decide (smokeRatio f > 3/100) }

/-- Claim C4: the fire/smoke decisions are exactly the spec formulas over
fireRatio, smokeRatio and the motion flags of one analyzer run on the same
frame; moreover fireRatio = 0.006 forces fireDetected regardless of flicker,
and fireRatio = 0.003 gives fireDetected exactly when flicker is present. -/
theorem detectFireAndSmoke_spec :
    (∀ f : Frame,
      (detectFireAndSmoke f).fireDetected =
        ((decide (fireRatio f > 2/1000) && (analyzeMotionPatterns f).hasFlickering) ||
          decide (fireRatio f > 5/1000))) ∧
    (∀ f : Frame,
      (detectFireAndSmoke f).smokeDetected =
        ((decide (smokeRatio f > 1/100) && (analyzeMotionPatterns f).hasUpwardMovement) ||
          decide (smokeRatio f > 3/100))) ∧
    (∀ f : Frame, fireRatio f = 6/1000 → (detectFireAndSmoke f).fireDetected = true) ∧
    (∀ f : Frame, fireRatio f = 3/1000 →
      (detectFireAndSmoke f).fireDetected = (analyzeMotionPatterns f).hasFlickering) := by
  refine ⟨fun f => rfl, fun f => rfl, fun f h => ?_, fun f h => ?_⟩
  · simp [detectFireAndSmoke, h]
    norm_num
  · simp [detectFireAndSmoke, h]
    norm_num

/-- Concrete frame: 3 fire-red pixels among 500 in a single row. -/
def fireFrameA : Frame :=
  ⟨500, 1, List.replicate 3 (255, 50, 50) ++ List.replicate 497 (0, 0, 0)⟩

/-- Concrete frame: 3 fire-red pixels among 1000 in a single row. -/
def fireFrameB : Frame :=
  ⟨1000, 1, List.replicate 3 (255, 50, 50) ++ List.replicate 997 (0, 0, 0)⟩

/-- The fire ratio of fireFrameA evaluates to exactly 0.006. -/
theorem fireFrameA_ratio : fireRatio fireFrameA = 6/1000 := by
  rw [fireRatio, fireFrameA]
  simp only [List.countP_append, List.countP_replicate, List.length_append,
    List.length_replicate]
  norm_num [isFireColor]

/-- The fire ratio of fireFrameB evaluates to exactly 0.003. -/
theorem fireFrameB_ratio : fireRatio fireFrameB = 3/1000 := by
  rw [fireRatio, fireFrameB]
  simp only [List.countP_append, List.countP_replicate, List.length_append,
    List.length_replicate]
  norm_num [isFireColor]

/-- Witness for C4: on fireFrameA the fire ratio is exactly 0.006 and fire is
detected; on fireFrameB it is exactly 0.003 and the fire decision equals the
flicker flag. -/
theorem detectFireAndSmoke_spec_witness :
    fireRatio fireFrameA = 6/1000 ∧ (detectFireAndSmoke fireFrameA).fireDetected = true ∧
    fireRatio fireFrameB = 3/1000 ∧
    (detectFireAndSmoke fireFrameB).fireDetected = (analyzeMotionPatterns fireFrameB).hasFlickering :=
  ⟨fireFrameA_ratio, detectFireAndSmoke_spec.2.2.1 fireFrameA fireFrameA_ratio,
    fireFrameB_ratio, detectFireAndSmoke_spec.2.2.2 fireFrameB fireFrameB_ratio⟩

/-- A face detection: corner coordinates in frame pixels, optional landmarks
and per-landmark probability from the backend, and the mask fields attached
by the mask detector (absent until then). -/
structure FaceDetection where
  topLeft : ℚ × ℚ
  bottomRight : ℚ × ℚ
  landmarks : Option (List (ℚ × ℚ))
  probability : Option (List ℚ)
  hasMask : Option Bool
  maskConfidence : Option ℚ
deriving DecidableEq

/-- Mask-presence decision with confidence. -/
structure MaskResult where
  hasMask : Bool
  confidence : ℚ
deriving DecidableEq

/-- Fraction of region pixels classified skin-tone (skinTonePixels over
totalPixels). -/
def skinRatio (region : List Pixel) : ℚ :=
  ((region.countP fun p => isSkinTone p.1 p.2.1 p.2.2 : ℕ) : ℚ) / region.length

/-- Fraction of region pixels classified fabric-like. -/
def fabricRatio (region : List Pixel) : ℚ :=
  ((region.countP fun p => isFabricLike p.1 p.2.1 p.2.2 : ℕ) : ℚ) / region.length

/-- The lower-half rows of a width-by-height face canvas, as selected by
getImageData(0, lowerFaceY, width, height - lowerFaceY) with
lowerFaceY = floor(height * 0.5). -/
def lowerFaceRegion (facePixels : List Pixel) (width height : ℕ) : List Pixel :=
  let lowerFaceY := height / 2
  (facePixels.drop (lowerFaceY * width)).take ((height - lowerFaceY) * width)

/-- Embeds analyzeFaceRegionForMask: samples the lower half of the face
canvas, accumulates the skin and fabric pixel ratios there, and decides
hasMask and confidence from them. -/
def analyzeFaceRegionForMask (facePixels : List Pixel) (width height : ℕ) : MaskResult :=
  let region := lowerFaceRegion facePixels width height
  { hasMask := decide (fabricRatio region > 3/10) && decide (skinRatio region < 2/5)
    confidence := min (19/20) (max (1/10) (fabricRatio region * 2)) }

/-- Reads the pixel at coordinates (x, y) of a frame buffer. -/
def pixel2D (f : Frame) (x y : ℕ) : Pixel := f.data.getD (y * f.width + x) (0, 0, 0)

/-- Pixels of the face rectangle with corner (x1, y1) and size w-by-h copied
off the frame onto the face canvas (drawImage followed by getImageData),
row-major; fractional coordinates are floored, reads outside the frame give
the zero pixel. -/
def sampleRegion (frame : Frame) (x1 y1 w h : ℚ) : List Pixel :=
  (List.range (Int.toNat ⌊h⌋)).flatMap fun j =>
    (List.range (Int.toNat ⌊w⌋)).map fun i =>
      pixel2D frame (Int.toNat (⌊x1⌋ + i)) (Int.toNat (⌊y1⌋ + j))

/-- Embeds analyzeMaskByRegion: the fallback mask analysis without detailed
landmarks.  Computes the face box from the corners, draws that region onto a
canvas and analyzes its lower half. -/
def analyzeMaskByRegion (frame : Frame) (face : FaceDetection) : MaskResult :=
  let x1 := face.topLeft.1
  let y1 := face.topLeft.2
  let x2 := face.bottomRight.1
  let y2 := face.bottomRight.2
  let faceWidth := x2 - x1
  let faceHeight := y2 - y1
  analyzeFaceRegionForMask (sampleRegion frame x1 y1 faceWidth faceHeight)
    (Int.toNat ⌊faceWidth⌋) (Int.toNat ⌊faceHeight⌋)

/-- Embeds analyzeMask: with fewer than 4 landmarks (or none) it falls back
to analyzeMaskByRegion; otherwise it computes the face box from the corners,
draws that region onto a canvas and analyzes its lower half. -/
def analyzeMask (frame : Frame) (face : FaceDetection) : MaskResult :=
  match face.landmarks with
  | none => analyzeMaskByRegion frame face
  | some lms =>
    if lms.length < 4 then analyzeMaskByRegion frame face
    else
      let x1 := face.topLeft.1
      let y1 := face.topLeft.2
      let x2 := face.bottomRight.1
      let y2 := face.bottomRight.2
      let faceWidth := x2 - x1
      let faceHeight := y2 - y1
      analyzeFaceRegionForMask (sampleRegion frame x1 y1 faceWidth faceHeight)
        (Int.toNat ⌊faceWidth⌋) (Int.toNat ⌊faceHeight⌋)

/-- Concrete face canvas, one row of 10 pixels that is its own lower half:
5 near-white fabric pixels, 1 skin-tone pixel, 4 neutral pixels, so the
fabric ratio is 0.5 and the skin ratio is 0.1. -/
def maskFacePixelsA : List Pixel :=
  [(255, 255, 255), (255, 255, 255), (255, 255, 255), (255, 255, 255), (255, 255, 255),
   (160, 120, 90), (100, 255, 0), (100, 255, 0), (100, 255, 0), (100, 255, 0)]

/-- Concrete face canvas with fabric ratio 0.1: 1 near-white fabric pixel and
9 neutral pixels. -/
def maskFacePixelsB : List Pixel :=
  [(255, 255, 255), (100, 255, 0), (100, 255, 0), (100, 255, 0), (100, 255, 0),
   (100, 255, 0), (100, 255, 0), (100, 255, 0), (100, 255, 0), (100, 255, 0)]

/-- Claim C3: on every nonempty sampled lower-face region the detector
decides hasMask exactly when the fabric ratio exceeds 0.3 and the skin ratio
is below 0.4, with confidence clamp(fabricRatio * 2, 0.1, 0.95); on the
concrete region with fabric ratio 0.5 and skin ratio 0.1 it returns hasMask
with confidence 0.95, and on the region with fabric ratio 0.1 it returns no
mask. -/
theorem analyzeFaceRegionForMask_spec :
    (∀ (facePixels : List Pixel) (width height : ℕ),
      lowerFaceRegion facePixels width height ≠ [] →
      ((analyzeFaceRegionForMask facePixels width height).hasMask = true ↔
        fabricRatio (lowerFaceRegion facePixels width height) > 3/10 ∧
          skinRatio (lowerFaceRegion facePixels width height) < 2/5) ∧
      (analyzeFaceRegionForMask facePixels width height).confidence =
        min (max (fabricRatio (lowerFaceRegion facePixels width height) * 2) (1/10)) (19/20)) ∧
    analyzeFaceRegionForMask maskFacePixelsA 10 1 = ⟨true, 19/20⟩ ∧
    (analyzeFaceRegionForMask maskFacePixelsB 10 1).hasMask = false := by
  refine ⟨fun facePixels width height _ => ⟨?_, ?_⟩, ?_, ?_⟩
  · simp [analyzeFaceRegionForMask]
  · rw [analyzeFaceRegionForMask, min_comm, max_comm]
  · rw [analyzeFaceRegionForMask]
    norm_num [lowerFaceRegion, maskFacePixelsA, fabricRatio, skinRatio,
      List.countP_cons, isFabricLike, isSkinTone, MaskResult.mk.injEq]
  · rw [analyzeFaceRegionForMask]
    norm_num [lowerFaceRegion, maskFacePixelsB, fabricRatio, skinRatio,
      List.countP_cons, isFabricLike, isSkinTone]

/-- Witness for C3: the concrete lower-face region maskFacePixelsA is
nonempty and the decision characterization holds on it. -/
theorem analyzeFaceRegionForMask_spec_witness :
    lowerFaceRegion maskFacePixelsA 10 1 ≠ [] ∧
    (((analyzeFaceRegionForMask maskFacePixelsA 10 1).hasMask = true ↔
      fabricRatio (lowerFaceRegion maskFacePixelsA 10 1) > 3/10 ∧
        skinRatio (lowerFaceRegion maskFacePixelsA 10 1) < 2/5) ∧
      (analyzeFaceRegionForMask maskFacePixelsA 10 1).confidence =
        min (max (fabricRatio (lowerFaceRegion maskFacePixelsA 10 1) * 2) (1/10)) (19/20)) :=
  ⟨by decide, analyzeFaceRegionForMask_spec.1 maskFacePixelsA 10 1 (by decide)⟩

/-- Claim C9: the landmark-guided mask path and the fallback region path
return the same result on every frame and face: landmark presence only
selects the code path, not the outcome. -/
theorem analyzeMask_eq_analyzeMaskByRegion (frame : Frame) (face : FaceDetection) :
    analyzeMask frame face = analyzeMaskByRegion frame face := by
  rw [analyzeMask]
  rcases h : face.landmarks with _ | lms
  · rfl
  · by_cases hlen : lms.length < 4
    · simp [hlen]
    · simp [hlen, analyzeMaskByRegion]

/-- Witness for C9 at a concrete frame and face (the mock face box). -/
theorem analyzeMask_eq_analyzeMaskByRegion_witness :
    analyzeMask ⟨0, 0, []⟩ ⟨(120, 80), (220, 180), none, none, none, none⟩ =
      analyzeMaskByRegion ⟨0, 0, []⟩ ⟨(120, 80), (220, 180), none, none, none, none⟩ :=
  analyzeMask_eq_analyzeMaskByRegion ⟨0, 0, []⟩ ⟨(120, 80), (220, 180), none, none, none, none⟩

/-- A bounding box [x, y, width, height] in frame pixel coordinates. -/
structure BBox where
  x : ℚ
  y : ℚ
  width : ℚ
  height : ℚ
deriving DecidableEq

/-- An object detection: class label, confidence score and bounding box. -/
structure Detection where
  cls : String
  score : ℚ
  bbox : BBox
deriving DecidableEq

/-- A raw, untyped object prediction as returned by the detection backend
before validation. -/
structure RawObjectPrediction where
  cls : String
  score : ℚ
  bbox : BBox
deriving DecidableEq

/-- Embeds the backend path of detectObjects: filters predictions to
confidence above 0.3, maps them into the Detection shape and discards any
whose bounding box has negative coordinates or non-positive size. -/
def detectObjects (predictions : List RawObjectPrediction) : List Detection :=
  ((predictions.filter fun pred => decide (pred.score > 3/10)).map
      fun pred => ({ cls := pred.cls, score := pred.score, bbox := pred.bbox } : Detection)).filter
    fun detection =>
      decide (detection.bbox.x ≥ 0) && decide (detection.bbox.y ≥ 0) &&
        decide (detection.bbox.width > 0) && decide (detection.bbox.height > 0)

/-- Claim C7: every detection surfaced by the backend path of detectObjects
satisfies score above 0.3 and the bounding-box invariant, and any prediction
violating either is discarded: its Detection value never appears in the
output. -/
theorem detectObjects_invariant :
    (∀ (predictions : List RawObjectPrediction) (d : Detection),
      d ∈ detectObjects predictions →
        d.score > 3/10 ∧ d.bbox.width > 0 ∧ d.bbox.height > 0 ∧ d.bbox.x ≥ 0 ∧ d.bbox.y ≥ 0) ∧
    (∀ (predictions : List RawObjectPrediction) (p : RawObjectPrediction),
      ¬(p.score > 3/10 ∧ p.bbox.x ≥ 0 ∧ p.bbox.y ≥ 0 ∧ p.bbox.width > 0 ∧ p.bbox.height > 0) →
        ({ cls := p.cls, score := p.score, bbox := p.bbox } : Detection) ∉ detectObjects predictions) := by
  constructor
  · intro predictions d hd
    rw [detectObjects] at hd
    simp only [List.mem_filter, List.mem_map, Bool.and_eq_true, decide_eq_true_eq] at hd
    obtain ⟨⟨pred, hpred, rfl⟩, ⟨⟨hx, hy⟩, hw⟩, hh⟩ := hd
    exact ⟨hpred.2, hw, hh, hx, hy⟩
  · intro predictions p hviol hmem
    rw [detectObjects] at hmem
    simp only [List.mem_filter, List.mem_map, Bool.and_eq_true, decide_eq_true_eq] at hmem
    obtain ⟨⟨pred, hpred, heq⟩, ⟨⟨hx, hy⟩, hw⟩, hh⟩ := hmem
    apply hviol
    refine ⟨?_, hx, hy, hw, hh⟩
    have hs : p.score = pred.score := congrArg Detection.score heq.symm
    rw [hs]
    exact hpred.2

/-- Witness for C7: a malformed prediction (score 0.9 but width 0) is not
surfaced by detectObjects. -/
theorem detectObjects_invariant_witness :
    ¬((9/10 : ℚ) > 3/10 ∧ (5 : ℚ) ≥ 0 ∧ (5 : ℚ) ≥ 0 ∧ (0 : ℚ) > 0 ∧ (10 : ℚ) > 0) ∧
      ({ cls := "person", score := 9/10, bbox := ⟨5, 5, 0, 10⟩ } : Detection) ∉
        detectObjects [⟨"person", 9/10, ⟨5, 5, 0, 10⟩⟩] :=
  ⟨fun h => lt_irrefl (0 : ℚ) h.2.2.2.1,
    detectObjects_invariant.2 [⟨"person", 9/10, ⟨5, 5, 0, 10⟩⟩] ⟨"person", 9/10, ⟨5, 5, 0, 10⟩⟩
      (fun h => lt_irrefl (0 : ℚ) h.2.2.2.1)⟩

/-- A raw face prediction as returned by the face detection backend. -/
structure RawFacePrediction where
  topLeft : ℚ × ℚ
  bottomRight : ℚ × ℚ
  landmarks : Option (List (ℚ × ℚ))
  probability : Option (List ℚ)
deriving DecidableEq

/-- Embeds the backend path of detectFaces: copies the predicted corners,
landmarks and probability into the FaceDetection shape, then runs the mask
detector on the frame and attaches hasMask and maskConfidence to every
returned face. -/
def detectFaces (frame : Frame) (predictions : List RawFacePrediction) : List FaceDetection :=
  predictions.map fun pred =>
    let faceDetection : FaceDetection :=
      { topLeft := pred.topLeft, bottomRight := pred.bottomRight,
        landmarks := pred.landmarks, probability := pred.probability,
        hasMask := none, maskConfidence := none }
    let maskAnalysis := analyzeMask frame faceDetection
    { faceDetection with
        hasMask := some maskAnalysis.hasMask
        maskConfidence := some maskAnalysis.confidence }

/-- Embeds getMockFaceDetections: with probability 0.6 (first draw above 0.4)
a single fixed mock face appears, carrying a random mask flag (second draw)
and a random mask confidence in [0.7, 1.0) (third draw); otherwise no face.
The three Math.random draws are explicit arguments. -/
def getMockFaceDetections (r1 r2 r3 : ℚ) : List FaceDetection :=
  if r1 > 2/5 then
    [{ topLeft := (120, 80), bottomRight := (220, 180),
       landmarks := some [(150, 120), (190, 120), (170, 140), (170, 160)],
       probability := some [9/10],
       hasMask := some (decide (r2 > 3/5)),
       maskConfidence := some (7/10 + r3 * (3/10)) }]
  else []

/-- Result of the classroom aggregator. -/
structure ClassroomResult where
  studentCount : ℕ
  attentionLevel : ℤ
  distractions : ℕ
  engagementItems : ℕ
  alerts : List String
  faceDetectionRate : ℤ
deriving DecidableEq

/-- Embeds analyzeForClassroom. -/
def analyzeForClassroom (detections : List Detection) (faces : List FaceDetection) :
    ClassroomResult :=
  let people := detections.filter fun d => d.cls == "person" && decide (d.score > 1/2)
  let phones := detections.filter fun d => d.cls == "cell phone" && decide (d.score > 2/5)
  let books := detections.filter fun d => d.cls == "book" && decide (d.score > 2/5)
  let laptops := detections.filter fun d => d.cls == "laptop" && decide (d.score > 2/5)
  let studentCount := max people.length faces.length
  let attentionLevel : ℚ :=
    if studentCount > 0 then
      let faceRatio : ℚ := (faces.length : ℚ) / studentCount
      let distractionPenalty : ℚ := (phones.length : ℚ) * 10 + (laptops.length : ℚ) * 5
      max 0 (min 100 (faceRatio * 85 - distractionPenalty))
    else 0
  let alerts : List String :=
    (if phones.length > 0 then [toString phones.length ++ " mobile phone(s) detected"] else []) ++
    (if laptops.length > 2 then ["Multiple laptops detected - verify if authorized"] else []) ++
    (if studentCount > 0 ∧ (faces.length : ℚ) / studentCount < 7/10 then
      ["Low face detection rate - students may not be facing camera"] else [])
  { studentCount
    attentionLevel := round attentionLevel
    distractions := phones.length
    engagementItems := books.length
    alerts
    faceDetectionRate :=
      if studentCount > 0 then round (((faces.length : ℚ) / studentCount) * 100) else 0 }

/-- Result of the exam aggregator. -/
structure ExamResult where
  candidateCount : ℕ
  gazeCompliance : ℤ
  violations : ℕ
  alerts : List String
  prohibitedItems : ℕ
deriving DecidableEq

/-- Embeds analyzeForExam. -/
def analyzeForExam (detections : List Detection) (faces : List FaceDetection) : ExamResult :=
  let people := detections.filter fun d => d.cls == "person" && decide (d.score > 1/2)
  let phones := detections.filter fun d => d.cls == "cell phone" && decide (d.score > 2/5)
  let books := detections.filter fun d => d.cls == "book" && decide (d.score > 2/5)
  let laptops := detections.filter fun d => d.cls == "laptop" && decide (d.score > 2/5)
  let backpacks := detections.filter fun d => d.cls == "backpack" && decide (d.score > 2/5)
  let candidateCount := max people.length faces.length
  let gazeCompliance : ℚ :=
    if candidateCount > 0 then
      let faceDetectionRate : ℚ := (faces.length : ℚ) / candidateCount
      min 100 (faceDetectionRate * 95)
    else 0
  let violations : List String :=
    (if phones.length > 0 then [toString phones.length ++ " unauthorized device(s) detected"] else []) ++
    (if books.length > candidateCount then ["Excessive reference materials detected"] else []) ++
    (if laptops.length > 0 then [toString laptops.length ++ " laptop(s) detected in exam area"] else []) ++
    (if backpacks.length > 0 then ["Personal bags detected - should be stored away"] else []) ++
    (if candidateCount > 0 ∧ (faces.length : ℚ) / candidateCount < 8/10 then
      ["Low gaze compliance - candidates not facing forward"] else [])
  { candidateCount
    gazeCompliance := round gazeCompliance
    violations := violations.length
    alerts := violations
    prohibitedItems := phones.length + laptops.length +
      (if books.length > candidateCount then books.length - candidateCount else 0) }

/-- Seating detected by the occupancy aggregator. -/
structure SeatingDetected where
  chairs : ℕ
  benches : ℕ
  couches : ℕ
deriving DecidableEq

/-- Result of the occupancy aggregator. -/
structure OccupancyResult where
  currentOccupancy : ℕ
  maxCapacity : ℕ
  occupancyRate : ℤ
  availableSeats : ℤ
  alerts : List String
  seatingDetected : SeatingDetected
deriving DecidableEq

/-- Embeds analyzeForOccupancy. -/
def analyzeForOccupancy (detections : List Detection) : OccupancyResult :=
  let people := detections.filter fun d => d.cls == "person" && decide (d.score > 1/2)
  let chairs := detections.filter fun d => d.cls == "chair" && decide (d.score > 2/5)
  let benches := detections.filter fun d => d.cls == "bench" && decide (d.score > 2/5)
  let couches := detections.filter fun d => d.cls == "couch" && decide (d.score > 2/5)
  let totalSeats := chairs.length + benches.length * 3 + couches.length * 4
  let maxCapacity := max totalSeats 20
  let currentOccupancy := people.length
  let occupancyRate : ℚ := min 100 (((currentOccupancy : ℚ) / maxCapacity) * 100)
  let availableSeats : ℤ := max 0 ((maxCapacity : ℤ) - (currentOccupancy : ℤ))
  let alerts : List String :=
    (if occupancyRate > 95 then ["Space at maximum capacity"]
     else if occupancyRate > 85 then ["Approaching full capacity"]
     else if occupancyRate > 70 then ["High occupancy detected"]
     else []) ++
    (if currentOccupancy > maxCapacity then ["Occupancy exceeds estimated capacity"] else [])
  { currentOccupancy
    maxCapacity
    occupancyRate := round occupancyRate
    availableSeats
    alerts
    seatingDetected := ⟨chairs.length, benches.length, couches.length⟩ }

/-- Result of the compliance aggregator. -/
structure ComplianceResult where
  peopleCount : ℕ
  maskCompliance : ℤ
  uniformCompliance : ℤ
  violations : ℕ
  alerts : List String
  facesAnalyzed : ℕ
  maskedFaces : ℕ
deriving DecidableEq

/-- Embeds analyzeForCompliance.  The source draws Math.random() once for the
placeholder uniform-compliance value; that hidden draw is the explicit rand
argument here. -/
def analyzeForCompliance (detections : List Detection) (faces : List FaceDetection)
    (rand : ℚ) : ComplianceResult :=
  let people := detections.filter fun d => d.cls == "person" && decide (d.score > 1/2)
  let totalPeople := max people.length faces.length
  let totalFacesAnalyzed := faces.countP fun face => face.hasMask.isSome
  let maskedFaces := faces.countP fun face =>
    face.hasMask.isSome && face.hasMask.getD false && decide (face.maskConfidence.getD 0 > 1/2)
  let maskCompliance : ℚ :=
    if totalFacesAnalyzed > 0 then ((maskedFaces : ℚ) / totalFacesAnalyzed) * 100 else 0
  let uniformCompliance : ℚ := rand * 10 + 90
  let alerts : List String :=
    (if maskCompliance < 85 then
      ["Low mask compliance: " ++ toString (round maskCompliance) ++ "%"] else []) ++
    (if uniformCompliance < 95 then ["Uniform policy violation detected"] else []) ++
    (if totalPeople > totalFacesAnalyzed ∧ totalPeople > 0 then
      [toString (totalPeople - totalFacesAnalyzed) ++ " people without face detection"] else [])
  { peopleCount := totalPeople
    maskCompliance := round maskCompliance
    uniformCompliance := round uniformCompliance
    violations := alerts.length
    alerts
    facesAnalyzed := totalFacesAnalyzed
    maskedFaces }

/-- Potential hazards reported by the safety aggregator. -/
structure PotentialHazards where
  fire : Bool
  smoke : Bool
  crowding : Bool
  unattendedItems : Bool
  equipmentMissing : Bool
deriving DecidableEq

/-- Result of the safety aggregator. -/
structure SafetyResult where
  peopleCount : ℕ
  systemStatus : String
  safetyEquipment : ℕ
  alerts : List String
  responseTime : String
  fireDetected : Bool
  smokeDetected : Bool
  potentialHazards : PotentialHazards
deriving DecidableEq

/-- Embeds analyzeForSafety.  The optional video element is the optional
frame; when absent the fire and smoke flags stay false and no fire analysis
runs. -/
def analyzeForSafety (detections : List Detection) (frame : Option Frame) : SafetyResult :=
  let people := detections.filter fun d => d.cls == "person" && decide (d.score > 1/2)
  let fireExtinguishers := detections.filter fun d =>
    d.cls == "fire hydrant" && decide (d.score > 2/5)
  let bags := detections.filter fun d => d.cls == "backpack" && decide (d.score > 2/5)
  let fireAnalysis := match frame with
    | some v => detectFireAndSmoke v
    | none => ⟨false, false⟩
  let fireDetected := fireAnalysis.fireDetected
  let smokeDetected := fireAnalysis.smokeDetected
  let status1 := if fireDetected then "emergency" else "operational"
  let status2 := if smokeDetected then
      (if status1 = "operational" then "warning" else status1)
    else status1
  let systemStatus := if people.length > 10 ∧ people.length > 20 then
      (if status2 = "operational" then "crowded" else status2)
    else status2
  let alerts : List String :=
    (if fireDetected then ["🔥 FIRE DETECTED - EMERGENCY EVACUATION REQUIRED!"] else []) ++
    (if smokeDetected then ["💨 SMOKE DETECTED - POTENTIAL FIRE HAZARD!"] else []) ++
    (if people.length > 10 then
      [("High occupancy: " ++ toString people.length ++ " people detected")] ++
        (if people.length > 20 then ["Potential crowd safety concern"] else [])
     else []) ++
    (if bags.length > people.length then
      ["Unattended bags detected - security check recommended"] else []) ++
    (if fireExtinguishers.length = 0 then ["No fire safety equipment visible in frame"] else [])
  let responseTime := if fireDetected || smokeDetected then "0.1s"
    else if people.length > 10 then "0.5s"
    else "0.3s"
  { peopleCount := people.length
    systemStatus
    safetyEquipment := fireExtinguishers.length
    alerts
    responseTime
    fireDetected
    smokeDetected
    potentialHazards :=
      { fire := fireDetected
        smoke := smokeDetected
        crowding := decide (people.length > 15)
        unattendedItems := decide (bags.length > people.length)
        equipmentMissing := decide (fireExtinguishers.length = 0) } }

/-- Concrete detections: 25 persons and 5 chairs, all scoring 0.9. -/
def occupancyDetections : List Detection :=
  List.replicate 25 ⟨"person", 9/10, ⟨0, 0, 50, 100⟩⟩ ++
    List.replicate 5 ⟨"chair", 9/10, ⟨0, 0, 40, 40⟩⟩

/-- Claim C5: the occupancy aggregator computes seats, capacity, rate and
available seats by the spec formulas, and on 5 chairs with 25 people it
reports maxCapacity 20, a clamped occupancy rate of 100 and the
over-capacity alert. -/
theorem analyzeForOccupancy_spec :
    (∀ d : List Detection,
      (analyzeForOccupancy d).maxCapacity =
        max ((d.filter fun x => x.cls == "chair" && decide (x.score > 2/5)).length +
          (d.filter fun x => x.cls == "bench" && decide (x.score > 2/5)).length * 3 +
          (d.filter fun x => x.cls == "couch" && decide (x.score > 2/5)).length * 4) 20 ∧
      (analyzeForOccupancy d).currentOccupancy =
        (d.filter fun x => x.cls == "person" && decide (x.score > 1/2)).length ∧
      (analyzeForOccupancy d).occupancyRate =
        round (min 100 ((((analyzeForOccupancy d).currentOccupancy : ℚ) /
          ((analyzeForOccupancy d).maxCapacity : ℕ)) * 100)) ∧
      (analyzeForOccupancy d).availableSeats =
        max 0 (((analyzeForOccupancy d).maxCapacity : ℤ) -
          ((analyzeForOccupancy d).currentOccupancy : ℤ))) ∧
    (analyzeForOccupancy occupancyDetections).maxCapacity = 20 ∧
    (analyzeForOccupancy occupancyDetections).occupancyRate = 100 ∧
    "Occupancy exceeds estimated capacity" ∈ (analyzeForOccupancy occupancyDetections).alerts := by
  have hper : (occupancyDetections.filter fun x =>
      x.cls == "person" && decide (x.score > 1/2)).length = 25 := by
    rw [occupancyDetections, ← List.countP_eq_length_filter]
    simp only [List.countP_append, List.countP_replicate]
    norm_num
    decide
  have hch : (occupancyDetections.filter fun x =>
      x.cls == "chair" && decide (x.score > 2/5)).length = 5 := by
    rw [occupancyDetections, ← List.countP_eq_length_filter]
    simp only [List.countP_append, List.countP_replicate]
    norm_num
    decide
  have hbe : (occupancyDetections.filter fun x =>
      x.cls == "bench" && decide (x.score > 2/5)).length = 0 := by
    rw [occupancyDetections, ← List.countP_eq_length_filter]
    simp only [List.countP_append, List.countP_replicate]
    norm_num
    decide
  have hco : (occupancyDetections.filter fun x =>
      x.cls == "couch" && decide (x.score > 2/5)).length = 0 := by
    rw [occupancyDetections, ← List.countP_eq_length_filter]
    simp only [List.countP_append, List.countP_replicate]
    norm_num
    decide
  refine ⟨fun d => ⟨rfl, rfl, rfl, rfl⟩, ?_, ?_, ?_⟩ <;>
    · simp only [analyzeForOccupancy, hper, hch, hbe, hco]
      norm_num [min_def]

/-- Claim C2: with a frame supplied, the safety aggregator's system status is
emergency exactly when fire is detected, else warning when smoke is detected,
else crowded when more than 20 people are detected, else operational. -/
theorem analyzeForSafety_status (d : List Detection) (f : Frame) :
    (analyzeForSafety d (some f)).systemStatus =
      if (detectFireAndSmoke f).fireDetected = true then "emergency"
      else if (detectFireAndSmoke f).smokeDetected = true then "warning"
      else if (d.filter fun x => x.cls == "person" && decide (x.score > 1/2)).length > 20 then
        "crowded"
      else "operational" := by
  have h20 : ∀ n : ℕ, (n > 10 ∧ n > 20) ↔ n > 20 := fun n => by omega
  simp only [analyzeForSafety, h20]
  cases hf : (detectFireAndSmoke f).fireDetected <;>
    cases hs : (detectFireAndSmoke f).smokeDetected <;>
      by_cases hp :
          (d.filter fun x => x.cls == "person" && decide (x.score > 1/2)).length > 20 <;>
        simp [hf, hs, hp]

/-- Counterexample to C1: two compliance aggregation calls on identical
inputs (empty detections and faces) but different hidden Math.random draws
return different results: the draw 0 gives uniformCompliance 90 while the
draw 0.9 gives 99. -/
theorem analyzeForCompliance_not_input_deterministic :
    analyzeForCompliance [] [] 0 ≠ analyzeForCompliance [] [] (9/10) := by
  intro h
  have h2 := congrArg ComplianceResult.uniformCompliance h
  simp only [analyzeForCompliance] at h2
  norm_num [round_ofNat] at h2

/-- Claim C1 (amended): the classroom, exam, occupancy and safety aggregators
are embedded as functions of exactly their inputs, and the compliance
aggregator is deterministic in every output except the placeholder
uniformCompliance and the alerts and violations derived from it: its
peopleCount, maskCompliance, facesAnalyzed and maskedFaces do not depend on
the hidden random draw. -/
theorem analyzeForCompliance_rand_independent_metrics (d : List Detection)
    (faces : List FaceDetection) (r₁ r₂ : ℚ) :
    (analyzeForCompliance d faces r₁).peopleCount =
      (analyzeForCompliance d faces r₂).peopleCount ∧
    (analyzeForCompliance d faces r₁).maskCompliance =
      (analyzeForCompliance d faces r₂).maskCompliance ∧
    (analyzeForCompliance d faces r₁).facesAnalyzed =
      (analyzeForCompliance d faces r₂).facesAnalyzed ∧
    (analyzeForCompliance d faces r₁).maskedFaces =
      (analyzeForCompliance d faces r₂).maskedFaces :=
  ⟨rfl, rfl, rfl, rfl⟩

/-- Claim C10: every face returned by detectFaces, on the backend path or the
mock fallback path, carries defined hasMask and maskConfidence fields, and
the compliance aggregation counts every such face as analyzed. -/
theorem detectFaces_mask_defined :
    (∀ (frame : Frame) (predictions : List RawFacePrediction) (fd : FaceDetection),
      fd ∈ detectFaces frame predictions →
        fd.hasMask.isSome ∧ fd.maskConfidence.isSome) ∧
    (∀ (r1 r2 r3 : ℚ) (fd : FaceDetection),
      fd ∈ getMockFaceDetections r1 r2 r3 →
        fd.hasMask.isSome ∧ fd.maskConfidence.isSome) ∧
    (∀ (d : List Detection) (faces : List FaceDetection) (rand : ℚ),
      (∀ fd ∈ faces, fd.hasMask.isSome) →
        (analyzeForCompliance d faces rand).facesAnalyzed = faces.length) := by
  refine ⟨?_, ?_, ?_⟩
  · intro frame predictions fd hfd
    rw [detectFaces] at hfd
    simp only [List.mem_map] at hfd
    obtain ⟨pred, _, rfl⟩ := hfd
    exact ⟨rfl, rfl⟩
  · intro r1 r2 r3 fd hfd
    rw [getMockFaceDetections] at hfd
    split at hfd
    · rw [List.mem_singleton] at hfd
      subst hfd
      exact ⟨rfl, rfl⟩
    · simp at hfd
  · intro d faces rand h
    simp only [analyzeForCompliance]
    rw [List.countP_eq_length]
    exact fun fd hfd => h fd hfd

/-- Concrete one-pixel frame for the witness. -/
def mockFrame : Frame := ⟨1, 1, [(0, 0, 0)]⟩

/-- Concrete raw face prediction covering that one pixel. -/
def rawFace0 : RawFacePrediction := ⟨(0, 0), (1, 1), none, none⟩

/-- The face detection built from rawFace0 before mask analysis. -/
def preFace0 : FaceDetection := ⟨(0, 0), (1, 1), none, none, none, none⟩

/-- The face detection that the backend path returns for rawFace0. -/
def realFace0 : FaceDetection :=
  { preFace0 with
      hasMask := some (analyzeMask mockFrame preFace0).hasMask
      maskConfidence := some (analyzeMask mockFrame preFace0).confidence }

/-- The mock face produced by the draws (1, 0, 0): no mask (0 is not above
0.6) and mask confidence 0.7. -/
def mockFace0 : FaceDetection :=
  ⟨(120, 80), (220, 180), some [(150, 120), (190, 120), (170, 140), (170, 160)],
    some [9/10], some false, some (7/10)⟩

/-- Witness for C10 on the backend path, the mock path and a singleton
compliance aggregation. -/
theorem detectFaces_mask_defined_witness :
    (realFace0 ∈ detectFaces mockFrame [rawFace0] ∧
      (realFace0.hasMask.isSome ∧ realFace0.maskConfidence.isSome)) ∧
    (mockFace0 ∈ getMockFaceDetections 1 0 0 ∧
      (mockFace0.hasMask.isSome ∧ mockFace0.maskConfidence.isSome)) ∧
    (analyzeForCompliance [] [realFace0] 0).facesAnalyzed = [realFace0].length := by
  have hreal : realFace0 ∈ detectFaces mockFrame [rawFace0] := by
    rw [detectFaces]
    simp only [List.map_cons, List.map_nil, List.mem_singleton]
    rfl
  have hmock : mockFace0 ∈ getMockFaceDetections 1 0 0 := by
    rw [getMockFaceDetections]
    rw [if_pos (by norm_num : (1 : ℚ) > 2/5)]
    simp only [List.mem_singleton, mockFace0, FaceDetection.mk.injEq]
    norm_num
  refine ⟨⟨hreal, detectFaces_mask_defined.1 mockFrame [rawFace0] realFace0 hreal⟩,
    ⟨hmock, detectFaces_mask_defined.2.1 1 0 0 mockFace0 hmock⟩,
    detectFaces_mask_defined.2.2 [] [realFace0] 0 ?_⟩
  intro fd hfd
  rw [List.mem_singleton] at hfd
  subst hfd
  rfl

/-- Outcome of one attempt of the model lifecycle environment: whether the
overall initialization step succeeds (backend ready, no load timeout), and
which of the two models actually loaded (individual load failures are caught
and leave the model handle null even on a successful attempt). -/
structure AttemptEnv where
  success : Bool
  objectLoaded : Bool
  faceLoaded : Bool
deriving DecidableEq

/-- The mutable fields of the ComputerVisionService relevant to lifecycle:
whether each model handle is non-null, the isInitialized flag and the attempt
counter. -/
structure ServiceState where
  objectModel : Bool
  faceModel : Bool
  faceMeshModel : Bool
  isInitialized : Bool
  initializationAttempts : ℕ
deriving DecidableEq

/-- The state at service construction. -/
def initialState : ServiceState := ⟨false, false, false, false, 0⟩

/-- How one invocation of the initialization method returns to its caller:
normally (also covering the already-initialized no-op), by scheduling the
recursive retry, or by raising the initialization error. -/
inductive InitResult where
  | completed
  | retryScheduled
  | raised (msg : String)
deriving DecidableEq

/-- The maxRetries bound of the service. -/
def maxRetries : ℕ := 3

/-- The error message raised after the last failed attempt. -/
def initErrorMessage : String :=
  "Failed to load AI models after " ++ toString maxRetries ++
    " attempts. Check your internet connection and try refreshing the page."

/-- Embeds one invocation of the initialization method (the internal retry
recursion is one further invocation per attempt): a no-op when already
initialized; otherwise the attempt counter increments and the attempt either
succeeds (models recorded, isInitialized set), schedules a retry while under
the retry bound, or forces fallback mode (isInitialized set with no models)
and raises the initialization error. -/
def initializeStep (s : ServiceState) (env : AttemptEnv) : ServiceState × InitResult :=
  if s.isInitialized then (s, InitResult.completed)
  else
    let s1 := { s with initializationAttempts := s.initializationAttempts + 1 }
    if env.success then
      ({ s1 with
          objectModel := env.objectLoaded
          faceModel := env.faceLoaded
          faceMeshModel := true
          isInitialized := true }, InitResult.completed)
    else if s1.initializationAttempts < maxRetries then
      (s1, InitResult.retryScheduled)
    else
      ({ s1 with isInitialized := true }, InitResult.raised initErrorMessage)

/-- Embeds isModelReady. -/
def isModelReady (s : ServiceState) : Bool := s.isInitialized

/-- Embeds hasRealModels. -/
def hasRealModels (s : ServiceState) : Bool := s.objectModel || s.faceModel

/-- Claim C6: from the fresh state, three consecutive failing attempts leave
the first two invocations retrying, make the third raise the one
initialization error while forcing the ready-with-no-real-models state
(isModelReady true, hasRealModels false), and every later invocation is a
raising-free no-op. -/
theorem modelLifecycle_three_failures (e1 e2 e3 : AttemptEnv)
    (h1 : e1.success = false) (h2 : e2.success = false) (h3 : e3.success = false) :
    (initializeStep initialState e1).2 = InitResult.retryScheduled ∧
    (initializeStep (initializeStep initialState e1).1 e2).2 = InitResult.retryScheduled ∧
    (initializeStep (initializeStep (initializeStep initialState e1).1 e2).1 e3).2 =
      InitResult.raised initErrorMessage ∧
    isModelReady (initializeStep (initializeStep (initializeStep initialState e1).1 e2).1 e3).1 =
      true ∧
    hasRealModels (initializeStep (initializeStep (initializeStep initialState e1).1 e2).1 e3).1 =
      false ∧
    (∀ env : AttemptEnv,
      initializeStep
          (initializeStep (initializeStep (initializeStep initialState e1).1 e2).1 e3).1 env =
        ((initializeStep (initializeStep (initializeStep initialState e1).1 e2).1 e3).1,
          InitResult.completed)) := by
  simp [initializeStep, initialState, isModelReady, hasRealModels, maxRetries, h1, h2, h3]

/-- Witness for C6: the three-failure run at the all-false environment. -/
theorem modelLifecycle_three_failures_witness :
    (initializeStep initialState ⟨false, false, false⟩).2 = InitResult.retryScheduled ∧
    (initializeStep (initializeStep initialState ⟨false, false, false⟩).1
      ⟨false, false, false⟩).2 = InitResult.retryScheduled ∧
    (initializeStep (initializeStep (initializeStep initialState ⟨false, false, false⟩).1
      ⟨false, false, false⟩).1 ⟨false, false, false⟩).2 = InitResult.raised initErrorMessage ∧
    isModelReady (initializeStep (initializeStep (initializeStep initialState
      ⟨false, false, false⟩).1 ⟨false, false, false⟩).1 ⟨false, false, false⟩).1 = true ∧
    hasRealModels (initializeStep (initializeStep (initializeStep initialState
      ⟨false, false, false⟩).1 ⟨false, false, false⟩).1 ⟨false, false, false⟩).1 = false ∧
    initializeStep (initializeStep (initializeStep (initializeStep initialState
        ⟨false, false, false⟩).1 ⟨false, false, false⟩).1 ⟨false, false, false⟩).1
        ⟨true, true, true⟩ =
      ((initializeStep (initializeStep (initializeStep initialState
        ⟨false, false, false⟩).1 ⟨false, false, false⟩).1 ⟨false, false, false⟩).1,
        InitResult.completed) := by
  obtain ⟨a, b, c, d, e, g⟩ :=
    modelLifecycle_three_failures ⟨false, false, false⟩ ⟨false, false, false⟩
      ⟨false, false, false⟩ rfl rfl rfl
  exact ⟨a, b, c, d, e, g ⟨true, true, true⟩⟩

end CampusGuard
